import Mathlib

/-!
Verification development for the Databricks integration service.

The definitions below are a shallow embedding of the Python sources:
* `nodes/import_export/databricks_base.py` (query executor, table bridge,
  volume bridge), and
* `nodes/finetuning_llms/finetuning_llm.py` (training launcher).

External SDK calls (the SQL driver, the workspace client, the model-training
client, the annotation-platform client) are modelled as explicit inputs:
a connection is a pair of response functions, a sequence of remote cluster
states is a list, the outcome of each job-submission attempt is a function
from attempt index to outcome, and so on.  Side effects that the properties
talk about (issued statements, start calls, sleeps, file removals, logged
failures) are returned as explicit traces.
-/

namespace DatabricksIntegration

/-! ## Query executor (`DatabricksBase.call_databricks_query`)

The Python code executes the statement on a cursor and then dispatches on the
statement text: `query.strip().upper().startswith("SELECT")` or
`.startswith("LIST")` selects `fetchall()`, anything else selects
`connection.commit()` followed by `cursor.rowcount`. -/

/-- Python `str.isspace` characters relevant to `str.strip()`. -/
def pyIsSpace (c : Char) : Bool :=
  c == ' ' || c == '\t' || c == '\n' || c == '\r' || c == '\x0b' || c == '\x0c'

/-- Python `str.strip()` on a character list: drop whitespace at both ends. -/
def pyStrip (cs : List Char) : List Char :=
  ((cs.dropWhile pyIsSpace).reverse.dropWhile pyIsSpace).reverse

/-- Python `str.upper()` on one ASCII character. -/
def pyUpperChar (c : Char) : Char :=
  if 'a' ≤ c && c ≤ 'z' then Char.ofNat (c.toNat - 32) else c

/-- `query.strip().upper()` as a character list. -/
def pyStripUpper (q : String) : List Char :=
  (pyStrip q.toList).map pyUpperChar

/-- The remote endpoint behind one connection: what `fetchall()` would return
for a statement and what `rowcount` would report for it.  This models the
external SQL driver, which is out of scope of the repository. -/
structure Conn where
  fetch : String → List (List String)
  rowcount : String → Int

/-- Result of one `call_databricks_query` call: either the fetched rows
(read path, no commit) or the affected row count after a commit. -/
inductive QueryResult where
  | fetchedRows (rows : List (List String))
  | committedRowcount (n : Int)
  deriving DecidableEq

/-- The dispatch test of `call_databricks_query`:
`query.strip().upper().startswith("SELECT") or
 query.strip().upper().startswith("LIST")`. -/
def isReadQuery (q : String) : Bool :=
  "SELECT".toList.isPrefixOf (pyStripUpper q) || "LIST".toList.isPrefixOf (pyStripUpper q)

/-- Embedding of `DatabricksBase.call_databricks_query` (lines 82-91 of
`databricks_base.py`): fetch all rows on the read path, otherwise commit and
return the affected row count. -/
def call_databricks_query (conn : Conn) (q : String) : QueryResult :=
  if isReadQuery q then QueryResult.fetchedRows (conn.fetch q)
  else QueryResult.committedRowcount (conn.rowcount q)

/-- Whether a query result is a row set obtained via `fetchall()`. -/
def isFetched : QueryResult → Bool
  | QueryResult.fetchedRows _ => true
  | QueryResult.committedRowcount _ => false

/-- Modelled from the spec: "the statement's leading keyword" — the first
whitespace-delimited token of the trimmed, upper-cased statement text.  This
definition follows the spec's words and is compared against the source's
prefix test. -/
def leadingKeyword (q : String) : String :=
  String.mk ((pyStripUpper q).takeWhile (fun c => !(pyIsSpace c)))

/-- A concrete connection used for closed instances: empty row sets, zero
row counts. -/
def exConn : Conn :=
  { fetch := fun _ => [], rowcount := fun _ => 0 }

/-! ## Table bridge: import (`DatabricksBase.create_table`)

`create_table` resolves the destination dataset (returning `None` if the
lookup fails), runs `SELECT * FROM catalog.schema.table`, and maps every
returned row to a `dl.PromptItem` named `str(res.id)` carrying one user
message whose single content part wraps `res.prompt`. -/

/-- One row of the queried table, as accessed by `create_table`: it reads the
`id` and `prompt` columns of each result row. -/
structure Row where
  id : Int
  prompt : String
  deriving DecidableEq

/-- One content part of a prompt message (`dl.PromptType.TEXT` together with
a value). -/
structure ContentPart where
  mimetype : String
  value : String
  deriving DecidableEq

/-- One message of a prompt item (`role` plus content parts). -/
structure Message where
  role : String
  content : List ContentPart
  deriving DecidableEq

/-- A prompt record as built by `create_table`: the `dl.PromptItem` name and
its messages. -/
structure PromptItem where
  name : String
  messages : List Message
  deriving DecidableEq

/-- The constant `dl.PromptType.TEXT` of the annotation-platform SDK
(opaque to this repository; only its identity matters here). -/
def promptTypeText : String := "application/text"

/-- The per-row body of `create_table`'s loop:
`dl.PromptItem(name=str(res.id))` followed by `.add` of one user message
wrapping `res.prompt`. -/
def promptItemOfRow (r : Row) : PromptItem :=
  { name := toString r.id
    messages := [{ role := "user"
                   content := [{ mimetype := promptTypeText, value := r.prompt }] }] }

/-- Embedding of `DatabricksBase.create_table` (lines 124-153): `none` when
the dataset lookup fails, otherwise the prompt items built from the fetched
rows (which the code then bulk-uploads with overwrite). -/
def create_table (datasetFound : Bool) (rows : List Row) : Option (List PromptItem) :=
  if datasetFound then some (rows.map promptItemOfRow) else none

/-! ## Python `int()` on strings

`update_table` computes `int(prompt_item.name[:-5])`.  `pythonInt` embeds the
builtin decimal-string conversion: strip surrounding whitespace, allow one
optional sign, then a nonempty digit run in which single underscores may
separate digits; anything else raises `ValueError` (here: `none`). -/

/-- After a leading digit: further digits, where a single underscore may sit
between two digits. -/
def digitsTailOk : List Char → Bool
  | [] => true
  | '_' :: c :: rest => c.isDigit && digitsTailOk rest
  | c :: rest => c.isDigit && digitsTailOk rest

/-- A valid unsigned decimal digit run for Python `int()`: nonempty, starts
with a digit, underscores only between digits. -/
def digitsOk : List Char → Bool
  | [] => false
  | c :: rest => c.isDigit && digitsTailOk rest

/-- Numeric value of a digit run (underscores already removed). -/
def digitsVal (cs : List Char) : Nat :=
  cs.foldl (fun n c => 10 * n + (c.toNat - '0'.toNat)) 0

/-- Value of a digit run with its underscores still present. -/
def runVal (cs : List Char) : Nat :=
  digitsVal (cs.filter (fun c => c != '_'))

/-- Embedding of the builtin `int(s)` conversion on strings: `some` the
parsed integer, `none` for the `ValueError` raise. -/
def pythonInt (s : String) : Option Int :=
  match pyStrip s.toList with
  | '+' :: rest => if digitsOk rest then some (Int.ofNat (runVal rest)) else none
  | '-' :: rest => if digitsOk rest then some (-(Int.ofNat (runVal rest))) else none
  | rest => if digitsOk rest then some (Int.ofNat (runVal rest)) else none

/-! ## Table bridge: export (`DatabricksBase.update_table`)

`update_table` loads the prompt item of the given annotated item, takes
`prompt_item.prompts[0].key`, scans `item.annotations.list()` for the first
annotation whose `attributes.get("isBest", False)` is truthy (an
`AttributeError` while reading attributes counts as not-best) and whose
`metadata["system"].get("promptId")` equals the first prompt's key, and on a
match extracts `coordinates` plus the model attribution
(`metadata.get("user", {}).get("model", {})`, with defaults `""` for
`model_id` and `"human"` for `name`).  With no match it logs and returns
`None`.  Otherwise it builds `params = (best_response, model_id, name,
int(prompt_item.name[:-5]))` and issues one parameterized UPDATE. -/

/-- One element of `item.annotations.list()` as read by `update_table`.
`isBestAttr = none` models an annotation whose attributes lookup raises
`AttributeError` (treated as not-best); `promptId` is
`metadata["system"].get("promptId")` (the external read model guarantees the
`system` section, `promptId` is optional); `modelId`/`modelName` are the
optional fields of `metadata.user.model`; `coordinates` is the response
text. -/
structure Resp where
  isBestAttr : Option Bool
  promptId : Option String
  modelId : Option String
  modelName : Option String
  coordinates : String
  deriving DecidableEq

/-- `resp.attributes.get("isBest", False)` with the `AttributeError` guard:
a missing attributes object defaults to `False`. -/
def respIsBest (r : Resp) : Bool :=
  r.isBestAttr.getD false

/-- The scan condition of `update_table`'s loop:
`is_best and resp.metadata["system"].get("promptId") == first_prompt_key`. -/
def isBestFor (k : String) (r : Resp) : Bool :=
  respIsBest r && (r.promptId == some k)

/-- The loop of `update_table` (lines 189-199): first matching annotation
wins (`break`), `none` when the loop falls through. -/
def findBest (k : String) : List Resp → Option Resp
  | [] => none
  | r :: rest => if isBestFor k r then some r else findBest k rest

/-- The annotated item as read by `update_table`: the prompt item's name,
the keys of `prompt_item.prompts` in order, and the listed annotations in
iteration order. -/
structure Item where
  promptName : String
  promptKeys : List String
  annotations : List Resp
  deriving DecidableEq

/-- Python `prompt_item.name[:-5]`: drop the last five characters (empty
result when the name has five or fewer characters). -/
def dropLast5 (s : String) : String :=
  String.mk (s.toList.take (s.toList.length - 5))

/-- One bound parameter of a parameterized statement. -/
inductive Param where
  | str (s : String)
  | int (n : Int)
  deriving DecidableEq

/-- One parameterized statement handed to `call_databricks_query`, with its
parameter tuple in order. -/
structure IssuedQuery where
  text : String
  params : List Param
  deriving DecidableEq

/-- The UPDATE statement text built by `update_table` (f-string at lines
205-209). -/
def updateQueryText (catalog schema tableName : String) : String :=
  "\n            UPDATE " ++ catalog ++ "." ++ schema ++ "." ++ tableName ++
    " \n            SET response = ?, model_id = ?, name = ? \n            WHERE id = ?\n        "

/-- Exceptions `update_table` can raise on the modelled inputs:
`indexError` for `prompt_item.prompts[0]` on an empty prompt list,
`valueError` for `int()` on an invalid decimal string. -/
inductive PyError where
  | indexError
  | valueError
  deriving DecidableEq

/-- Embedding of `DatabricksBase.update_table` (lines 155-229).  Returns the
list of issued parameterized statements together with the outcome:
`.ok none` for the logged "no best response" path, `.ok (some item)` after a
successful UPDATE, `.error e` when the Python code raises before issuing any
statement. -/
def update_table (catalog schema tableName : String) (it : Item) :
    List IssuedQuery × Except PyError (Option Item) :=
  match it.promptKeys with
  | [] => ([], Except.error PyError.indexError)
  | k :: _ =>
    match findBest k it.annotations with
    | none => ([], Except.ok none)
    | some r =>
      match pythonInt (dropLast5 it.promptName) with
      | none => ([], Except.error PyError.valueError)
      | some pk =>
        ([{ text := updateQueryText catalog schema tableName
            params := [Param.str r.coordinates
                      , Param.str (r.modelId.getD "")
                      , Param.str (r.modelName.getD "human")
                      , Param.int pk] }],
         Except.ok (some it))

/-! ## Training launcher (`finetuning_llm.ensure_cluster_running`)

The Python loop polls `client.clusters.get(cluster_id)` forever: it breaks
on state `'RUNNING'`, only waits on `'PENDING'`/`'RESTARTING'`, and on any
other state calls `client.clusters.start(cluster_id)` before sleeping 10s
and polling again.  The embedding consumes a finite list of observed states
and reports, per observation, what the loop did, plus whether it returned
within those observations. -/

/-- What one loop iteration does with one observed state. -/
inductive PollAction where
  | returned
  | waited
  | startedAndWaited
  deriving DecidableEq

/-- The branch structure of one iteration of `ensure_cluster_running`'s
`while True` loop (lines 19-33). -/
def pollStep (s : String) : PollAction :=
  if s == "RUNNING" then PollAction.returned
  else if s == "PENDING" || s == "RESTARTING" then PollAction.waited
  else PollAction.startedAndWaited

/-- Embedding of `ensure_cluster_running` run against a finite list of
observed cluster states: the per-observation action trace, and whether the
loop returned (observed `RUNNING`) within the list.  Observations after the
first `RUNNING` are never made because the loop has exited. -/
def ensure_cluster_running : List String → List PollAction × Bool
  | [] => ([], false)
  | s :: rest =>
    if s == "RUNNING" then ([PollAction.returned], true)
    else (pollStep s :: (ensure_cluster_running rest).1, (ensure_cluster_running rest).2)

/-- The states the loop actually observes: everything up to and including
the first `RUNNING`. -/
def statesSeen : List String → List String
  | [] => []
  | s :: rest => if s == "RUNNING" then [s] else s :: statesSeen rest

/-- Number of `client.clusters.start` calls recorded in a trace (each
`startedAndWaited` action issues exactly one start command). -/
def startCount (tr : List PollAction) : Nat :=
  (tr.filter (fun a => a == PollAction.startedAndWaited)).length

/-! ## Training launcher (`finetuning_llm.run_train`)

After `ensure_cluster_running`, the code runs
`for attempt in range(3): try: fm.create(...); break
 except TimeoutError: print(...); time.sleep(10)`.
A successful `fm.create` breaks out; a `TimeoutError` sleeps 10s and lets
the loop continue; any other exception propagates out of the function.  If
all three attempts time out the loop ends and the function returns
normally with no job created. -/

/-- Outcome of one `fm.create` submission attempt, as the external
model-training client behaves. -/
inductive AttemptOutcome where
  | success
  | timeout
  | otherError
  deriving DecidableEq

/-- How `run_train` ended. -/
inductive TrainResult where
  | returned (jobCreated : Bool)
  | raised
  deriving DecidableEq

/-- Trace of `run_train`'s retry loop: how many `fm.create` calls were made,
the sleeps performed (seconds, one per caught timeout), and how the function
ended. -/
structure TrainTrace where
  attempts : Nat
  sleeps : List Nat
  result : TrainResult
  deriving DecidableEq

/-- The retry loop of `run_train` (lines 55-71), with `fuel` remaining loop
iterations and `idx` the index of the next attempt.  `outcomes idx` is what
the `idx`-th `fm.create` call does. -/
def run_train_go (outcomes : Nat → AttemptOutcome) : Nat → Nat → TrainTrace
  | 0, _ => { attempts := 0, sleeps := [], result := TrainResult.returned false }
  | fuel + 1, idx =>
    match outcomes idx with
    | AttemptOutcome.success =>
      { attempts := 1, sleeps := [], result := TrainResult.returned true }
    | AttemptOutcome.otherError =>
      { attempts := 1, sleeps := [], result := TrainResult.raised }
    | AttemptOutcome.timeout =>
      let t := run_train_go outcomes fuel (idx + 1)
      { attempts := t.attempts + 1, sleeps := 10 :: t.sleeps, result := t.result }

/-- Embedding of `run_train`'s submission phase: `range(3)` gives three loop
iterations starting at attempt index 0. -/
def run_train (outcomes : Nat → AttemptOutcome) : TrainTrace :=
  run_train_go outcomes 3 0

/-! ## Volume bridge: folder download then bulk upload
(`DatabricksBase.upload_dbrx_folder_to_dtlp`)

The code LISTs the volume, submits one `download_file_from_volume` per
listed file to a pool of 5 workers, waits for all of them, logging (and
swallowing) every failure, and finally bulk-uploads the local scratch
folder.  Each download lands at
`os.path.join(tempdir, os.path.basename(local_file_path))`, i.e. the
listed path's basename inside the shared scratch folder. -/

/-- `os.path.basename`: the part after the last slash (the whole string when
it has no slash). -/
def basename (p : String) : String :=
  String.mk ((p.toList.reverse.takeWhile (fun c => c != '/')).reverse)

/-- Writing a file into the scratch folder (a later write to the same name
replaces the earlier file; the folder holds one entry per name). -/
def writeFile (folder : List String) (nm : String) : List String :=
  if nm ∈ folder then folder else nm :: folder

/-- The download fan-out of `upload_dbrx_folder_to_dtlp` (lines 309-328):
every listed file is attempted; a success deposits its basename in the
scratch folder, a failure is recorded as a logged error and the batch
continues.  `downloadOk` is the external outcome of each file's GET. -/
def downloadBatch (downloadOk : String → Bool) : List String → List String × List String
  | [] => ([], [])
  | f :: rest =>
    let t := downloadBatch downloadOk rest
    if downloadOk f then (writeFile t.1 (basename f), t.2)
    else (t.1, f :: t.2)

/-- Trace of one `upload_dbrx_folder_to_dtlp` run: the failures that were
logged, the file names present in the scratch folder when the bulk upload
runs, and the fact that the bulk upload was reached. -/
structure FolderUploadTrace where
  loggedFailures : List String
  uploadedNames : List String
  uploadProceeded : Bool
  deriving DecidableEq

/-- Embedding of `upload_dbrx_folder_to_dtlp` (lines 267-341): run the
download batch over the listed files, then bulk-upload whatever the scratch
folder holds. -/
def upload_dbrx_folder_to_dtlp (files : List String) (downloadOk : String → Bool) :
    FolderUploadTrace :=
  let t := downloadBatch downloadOk files
  { loggedFailures := t.2, uploadedNames := t.1, uploadProceeded := true }

/-! ## Volume bridge: single item PUT (`DatabricksBase.upload_item_to_volume`)

The code downloads the item to `file_path`, issues
`PUT '<file_path>' INTO '<volume_path>' OVERWRITE`, and only after the PUT
returns does it run `os.remove(file_path)`.  When `call_databricks_query`
raises, the exception propagates and `os.remove` never runs. -/

/-- Trace of one `upload_item_to_volume` run: the PUT statement text, whether
the local temp copy was removed, and whether the call raised. -/
structure VolumePutTrace where
  query : String
  tempFileRemoved : Bool
  raised : Bool
  deriving DecidableEq

/-- Embedding of `upload_item_to_volume` (lines 343-384).  `putOutcome` is
the outcome of the PUT statement executed by `call_databricks_query`:
`.ok` for a completed PUT, `.error` for a raised exception. -/
def upload_item_to_volume (catalog schema volumeName itemName filePath : String)
    (putOutcome : Except String Unit) : VolumePutTrace :=
  let volumePath :=
    "/Volumes/" ++ catalog ++ "/" ++ schema ++ "/" ++ volumeName ++ "/" ++ itemName
  let q := "PUT '" ++ filePath ++ "' INTO '" ++ volumePath ++ "' OVERWRITE"
  match putOutcome with
  | Except.ok _ => { query := q, tempFileRemoved := true, raised := false }
  | Except.error _ => { query := q, tempFileRemoved := false, raised := true }

/-! ## Helper lemmas -/

/-- If filtering the annotation list by the scan condition leaves exactly
`[r]`, the first-match scan returns `r`. -/
theorem findBest_of_filter_eq (k : String) (anns : List Resp) (r : Resp)
    (h : anns.filter (isBestFor k) = [r]) : findBest k anns = some r := by
  induction anns with
  | nil => simp at h
  | cons a rest ih =>
    cases ha : isBestFor k a
    · rw [List.filter_cons_of_neg (by simp [ha])] at h
      simp [findBest, ha, ih h]
    · rw [List.filter_cons_of_pos ha] at h
      injection h with h1 h2
      subst h1
      simp [findBest, ha]

/-- If no annotation satisfies the scan condition, the scan returns `none`. -/
theorem findBest_eq_none (k : String) (anns : List Resp)
    (h : ∀ r ∈ anns, isBestFor k r = false) : findBest k anns = none := by
  induction anns with
  | nil => rfl
  | cons a rest ih =>
    have ha := h a (by simp)
    simp only [findBest, ha]
    exact ih fun r hr => h r (by simp [hr])

/-- If some annotation satisfies the scan condition, the scan returns a
match. -/
theorem findBest_isSome (k : String) (anns : List Resp)
    (h : ∃ r ∈ anns, isBestFor k r = true) : ∃ a, findBest k anns = some a := by
  induction anns with
  | nil => simp at h
  | cons a rest ih =>
    cases ha : isBestFor k a
    · rcases h with ⟨r, hr, hbest⟩
      rcases List.mem_cons.mp hr with rfl | hr
      · rw [ha] at hbest; cases hbest
      · simpa [findBest, ha] using ih ⟨r, hr, hbest⟩
    · exact ⟨a, by simp [findBest, ha]⟩

/-- A list splits into the part satisfying a test and the part failing it. -/
theorem length_filter_add_length_filter_not {α : Type} (p : α → Bool) (l : List α) :
    (l.filter p).length + (l.filter (fun a => !(p a))).length = l.length := by
  induction l with
  | nil => rfl
  | cons a rest ih =>
    cases ha : p a <;> simp [List.filter_cons, ha] <;> omega

/-- The failures recorded by the download fan-out are exactly the files whose
download failed, in order. -/
theorem downloadBatch_fails (ok : String → Bool) (files : List String) :
    (downloadBatch ok files).2 = files.filter (fun f => !(ok f)) := by
  induction files with
  | nil => rfl
  | cons f rest ih =>
    cases hf : ok f <;> simp [downloadBatch, hf, ih]

/-- With all basenames distinct, the scratch folder ends up holding exactly
the basenames of the successfully downloaded files. -/
theorem downloadBatch_folder (ok : String → Bool) (files : List String)
    (hnd : (files.map basename).Nodup) :
    (downloadBatch ok files).1 = (files.filter ok).map basename := by
  induction files with
  | nil => rfl
  | cons f rest ih =>
    rw [List.map_cons, List.nodup_cons] at hnd
    have hrest := ih hnd.2
    cases hf : ok f
    · simp [downloadBatch, hf, List.filter_cons, hrest]
    · have hnm : basename f ∉ (rest.filter ok).map basename := by
        intro hmem
        rcases List.mem_map.mp hmem with ⟨x, hx, hbx⟩
        exact hnd.1 (List.mem_map.mpr ⟨x, List.mem_of_mem_filter hx, hbx⟩)
      simp [downloadBatch, hf, List.filter_cons, hrest, writeFile, hnm]

/-- The polling loop returns exactly when `RUNNING` occurs among the observed
states. -/
theorem ensure_cluster_running_done_iff (states : List String) :
    (ensure_cluster_running states).2 = true ↔ "RUNNING" ∈ states := by
  induction states with
  | nil => simp [ensure_cluster_running]
  | cons s rest ih =>
    cases hs : s == "RUNNING"
    · have hne : ¬("RUNNING" = s) := by
        intro h
        subst h
        simp at hs
      simp [ensure_cluster_running, hs, ih, hne]
    · have heq : s = "RUNNING" := by simpa using hs
      simp [ensure_cluster_running, hs, heq]

/-- The action trace of the polling loop is the pointwise branch action over
the observed states. -/
theorem ensure_cluster_running_trace (states : List String) :
    (ensure_cluster_running states).1 = (statesSeen states).map pollStep := by
  induction states with
  | nil => rfl
  | cons s rest ih =>
    cases hs : s == "RUNNING"
    · simp [ensure_cluster_running, statesSeen, hs, ih]
    · have heq : s = "RUNNING" := by simpa using hs
      simp [ensure_cluster_running, statesSeen, hs, pollStep, heq]

/-- Modelled from the spec: a state that is neither the terminal `RUNNING`
state nor one of the transitional states `PENDING`/`RESTARTING`. -/
def isNonTransitionalNonRunning (s : String) : Bool :=
  !(s == "RUNNING" || s == "PENDING" || s == "RESTARTING")

/-- One loop iteration issues a start command exactly for the
non-transitional, non-running states. -/
theorem pollStep_started_iff (s : String) :
    (pollStep s == PollAction.startedAndWaited) = isNonTransitionalNonRunning s := by
  unfold pollStep isNonTransitionalNonRunning
  cases h1 : s == "RUNNING" <;> cases h2 : s == "PENDING" <;>
    cases h3 : s == "RESTARTING" <;> simp [h1, h2, h3]

/-- Counting start calls over a pointwise trace counts the
non-transitional, non-running states. -/
theorem startCount_map_pollStep (l : List String) :
    startCount (l.map pollStep) = (l.filter isNonTransitionalNonRunning).length := by
  induction l with
  | nil => rfl
  | cons s rest ih =>
    have hp := pollStep_started_iff s
    cases hb : isNonTransitionalNonRunning s <;>
      rw [hb] at hp <;>
      simp [startCount, List.filter_cons, hp, hb] <;>
      simpa [startCount] using ih

/-- The retry loop makes at most `fuel` submission attempts. -/
theorem run_train_go_attempts_le (o : Nat → AttemptOutcome) (fuel idx : Nat) :
    (run_train_go o fuel idx).attempts ≤ fuel := by
  induction fuel generalizing idx with
  | zero => simp [run_train_go]
  | succ n ih =>
    cases h : o idx <;> simp [run_train_go, h]
    have := ih (idx + 1)
    omega

/-- Every sleep performed by the retry loop is the fixed 10-second backoff. -/
theorem run_train_go_sleeps (o : Nat → AttemptOutcome) (fuel idx : Nat) :
    ∀ s ∈ (run_train_go o fuel idx).sleeps, s = 10 := by
  induction fuel generalizing idx with
  | zero => simp [run_train_go]
  | succ n ih =>
    cases h : o idx <;> simp [run_train_go, h]
    exact ih (idx + 1)

/-- A further attempt is made only after a timeout: every attempt before the
last one timed out. -/
theorem run_train_go_retried_only_on_timeout (o : Nat → AttemptOutcome) (fuel idx : Nat) :
    ∀ j, j + 1 < (run_train_go o fuel idx).attempts → o (idx + j) = AttemptOutcome.timeout := by
  induction fuel generalizing idx with
  | zero => intro j hj; simp [run_train_go] at hj
  | succ n ih =>
    intro j hj
    cases h : o idx
    · simp [run_train_go, h] at hj
    · rw [show (run_train_go o (n + 1) idx).attempts =
          (run_train_go o n (idx + 1)).attempts + 1 by simp [run_train_go, h]] at hj
      cases j with
      | zero => simpa using h
      | succ m =>
        have := ih (idx + 1) m (by omega)
        rw [show idx + (m + 1) = idx + 1 + m by omega]
        exact this
    · simp [run_train_go, h] at hj

/-- If the first `k` attempts time out and attempt `k` raises a non-timeout
error, the loop stops after `k + 1` attempts and the error propagates. -/
theorem run_train_go_first_failure (o : Nat → AttemptOutcome) (fuel idx k : Nat)
    (hk : k < fuel)
    (hall : ∀ i, i < k → o (idx + i) = AttemptOutcome.timeout)
    (hko : o (idx + k) = AttemptOutcome.otherError) :
    (run_train_go o fuel idx).attempts = k + 1 ∧
      (run_train_go o fuel idx).result = TrainResult.raised := by
  induction fuel generalizing idx k with
  | zero => omega
  | succ n ih =>
    cases k with
    | zero =>
      have h0 : o idx = AttemptOutcome.otherError := by simpa using hko
      simp [run_train_go, h0]
    | succ m =>
      have h0 : o idx = AttemptOutcome.timeout := by simpa using hall 0 (Nat.succ_pos m)
      have hall1 : ∀ i, i < m → o (idx + 1 + i) = AttemptOutcome.timeout := by
        intro i hi
        have := hall (i + 1) (by omega)
        rwa [show idx + (i + 1) = idx + 1 + i by omega] at this
      have hko1 : o (idx + 1 + m) = AttemptOutcome.otherError := by
        rwa [show idx + (m + 1) = idx + 1 + m by omega] at hko
      have := ih (idx + 1) m (by omega) hall1 hko1
      simp [run_train_go, h0, this.1, this.2]

/-- If every attempt available to the loop times out, the loop exhausts its
attempts, sleeps after each, and falls through returning normally with no
job created. -/
theorem run_train_go_all_timeout (o : Nat → AttemptOutcome) (fuel idx : Nat)
    (h : ∀ i, i < fuel → o (idx + i) = AttemptOutcome.timeout) :
    run_train_go o fuel idx =
      { attempts := fuel, sleeps := List.replicate fuel 10
        result := TrainResult.returned false } := by
  induction fuel generalizing idx with
  | zero => rfl
  | succ n ih =>
    have h0 : o idx = AttemptOutcome.timeout := by simpa using h 0 (Nat.succ_pos n)
    have h1 : ∀ i, i < n → o (idx + 1 + i) = AttemptOutcome.timeout := by
      intro i hi
      have := h (i + 1) (by omega)
      rwa [show idx + (i + 1) = idx + 1 + i by omega] at this
    simp [run_train_go, h0, ih (idx + 1) h1, List.replicate_succ]

/-! ## Claim theorems -/

/-- Claim C1, code evaluation at the failing input: `upload_item_to_volume`
removes the local temp copy only on the success path; when the PUT statement
raises, the exception propagates and the temp file is left on disk, so the
claimed guaranteed cleanup on every exit path does not hold in the code. -/
theorem C1_no_cleanup_when_put_raises :
    (upload_item_to_volume "cat" "sch" "vol" "item.json" "/tmp/item.json"
        (Except.error "Failed to execute query")).tempFileRemoved = false ∧
    (upload_item_to_volume "cat" "sch" "vol" "item.json" "/tmp/item.json"
        (Except.error "Failed to execute query")).raised = true ∧
    (upload_item_to_volume "cat" "sch" "vol" "item.json" "/tmp/item.json"
        (Except.ok ())).tempFileRemoved = true :=
  ⟨rfl, rfl, rfl⟩

/-- Claim C2: for an item whose annotation list contains exactly one
annotation satisfying the best-response scan condition for the first
prompt's key, and whose prompt-record name parses (after dropping the fixed
5-character suffix) as a decimal integer, `update_table` issues exactly one
parameterized UPDATE, with the parameters in the order
(response, model_id, name, recovered_id), and returns the item. -/
theorem C2_update_table_single_best (catalog schema tableName : String) (it : Item)
    (k : String) (ks : List String) (r : Resp) (pk : Int)
    (hk : it.promptKeys = k :: ks)
    (hone : it.annotations.filter (isBestFor k) = [r])
    (hpk : pythonInt (dropLast5 it.promptName) = some pk) :
    update_table catalog schema tableName it =
      ([{ text := updateQueryText catalog schema tableName
          params := [Param.str r.coordinates
                    , Param.str (r.modelId.getD "")
                    , Param.str (r.modelName.getD "human")
                    , Param.int pk] }],
       Except.ok (some it)) := by
  have hfb := findBest_of_filter_eq k it.annotations r hone
  simp [update_table, hk, hfb, hpk]

/-- An annotation satisfying the scan condition for key `prompt-1`. -/
def respW : Resp :=
  { isBestAttr := some true, promptId := some "prompt-1", modelId := some "m-1"
    modelName := some "gpt", coordinates := "best answer" }

/-- An item carrying exactly one best annotation, named by the import-time
convention `<row-id>` plus a 5-character suffix. -/
def itemW : Item :=
  { promptName := "123.json", promptKeys := ["prompt-1"], annotations := [respW] }

/-- Witness for claim C2 at a concrete item. -/
theorem C2_update_table_single_best_witness :
    update_table "cat" "sch" "tbl" itemW =
      ([{ text := updateQueryText "cat" "sch" "tbl"
          params := [Param.str "best answer", Param.str "m-1"
                    , Param.str "gpt", Param.int 123] }],
       Except.ok (some itemW)) := by
  have h := C2_update_table_single_best "cat" "sch" "tbl" itemW "prompt-1" [] respW 123
    rfl (by decide) (by decide)
  simpa [respW] using h

/-- Claim C3: `run_train` makes at most 3 submission attempts, sleeps the
fixed 10 seconds after each caught timeout, re-attempts only after a
timeout (every attempt before the last one timed out), and a non-timeout
error at any reached attempt stops the loop immediately with the error
propagating. -/
theorem C3_run_train_retry_policy (o : Nat → AttemptOutcome) :
    (run_train o).attempts ≤ 3 ∧
    (∀ s ∈ (run_train o).sleeps, s = 10) ∧
    (∀ j, j + 1 < (run_train o).attempts → o j = AttemptOutcome.timeout) ∧
    (∀ k, k < 3 → (∀ i, i < k → o i = AttemptOutcome.timeout) →
      o k = AttemptOutcome.otherError →
      (run_train o).attempts = k + 1 ∧ (run_train o).result = TrainResult.raised) := by
  refine ⟨run_train_go_attempts_le o 3 0, run_train_go_sleeps o 3 0, ?_, ?_⟩
  · intro j hj
    have := run_train_go_retried_only_on_timeout o 3 0 j hj
    simpa using this
  · intro k hk hall hko
    refine run_train_go_first_failure o 3 0 k hk ?_ (by simpa using hko)
    intro i hi
    simpa using hall i hi

/-- Submission behavior where the very first attempt raises a non-timeout
error. -/
def otherFirst : Nat → AttemptOutcome := fun _ => AttemptOutcome.otherError

/-- Witness for claim C3: a first-attempt non-timeout error propagates after
exactly one attempt. -/
theorem C3_run_train_retry_policy_witness :
    (run_train otherFirst).attempts = 0 + 1 ∧ (run_train otherFirst).result = TrainResult.raised :=
  (C3_run_train_retry_policy otherFirst).2.2.2 0 (by omega)
    (fun i hi => absurd hi (Nat.not_lt_zero i)) rfl

/-- Claim C4: when all 3 submission attempts time out, `run_train` falls
through the loop and returns normally: three attempts were made, each
followed by the 10-second sleep, no job was created, and no error is raised
to the caller. -/
theorem C4_run_train_exhausted_timeouts (o : Nat → AttemptOutcome)
    (h : ∀ i, i < 3 → o i = AttemptOutcome.timeout) :
    run_train o =
      { attempts := 3, sleeps := [10, 10, 10]
        result := TrainResult.returned false } := by
  have := run_train_go_all_timeout o 3 0 (by intro i hi; simpa using h i hi)
  exact this

/-- Submission behavior where every attempt times out. -/
def allTimeout : Nat → AttemptOutcome := fun _ => AttemptOutcome.timeout

/-- Witness for claim C4 at the all-timeout behavior. -/
theorem C4_run_train_exhausted_timeouts_witness :
    run_train allTimeout =
      { attempts := 3, sleeps := [10, 10, 10]
        result := TrainResult.returned false } :=
  C4_run_train_exhausted_timeouts allTimeout (fun _ _ => rfl)

/-- Claim C5: the polling loop returns exactly when it observes `RUNNING`;
each observation acts by the branch rule (`PENDING`/`RESTARTING` wait
without a start call, any other non-`RUNNING` state issues exactly one
start call before re-polling), so the number of start calls equals the
number of non-transitional, non-running observed states; in particular
`[PENDING, PENDING, RUNNING]` produces no start call and
`[TERMINATED, RUNNING]` produces exactly one. -/
theorem C5_ensure_cluster_running_policy :
    (∀ states : List String,
      ((ensure_cluster_running states).2 = true ↔ "RUNNING" ∈ states) ∧
      (ensure_cluster_running states).1 = (statesSeen states).map pollStep ∧
      startCount (ensure_cluster_running states).1 =
        ((statesSeen states).filter isNonTransitionalNonRunning).length) ∧
    pollStep "PENDING" = PollAction.waited ∧
    pollStep "RESTARTING" = PollAction.waited ∧
    startCount (ensure_cluster_running ["PENDING", "PENDING", "RUNNING"]).1 = 0 ∧
    (ensure_cluster_running ["PENDING", "PENDING", "RUNNING"]).2 = true ∧
    startCount (ensure_cluster_running ["TERMINATED", "RUNNING"]).1 = 1 ∧
    (ensure_cluster_running ["TERMINATED", "RUNNING"]).2 = true := by
  refine ⟨fun states => ⟨ensure_cluster_running_done_iff states,
      ensure_cluster_running_trace states, ?_⟩,
    by decide, by decide, by decide, by decide, by decide, by decide⟩
  rw [ensure_cluster_running_trace states]
  exact startCount_map_pollStep (statesSeen states)

/-- Witness for claim C5: the loop returns on a concrete state sequence
containing `RUNNING`. -/
theorem C5_ensure_cluster_running_policy_witness :
    (ensure_cluster_running ["TERMINATED", "PENDING", "RUNNING"]).2 = true :=
  ((C5_ensure_cluster_running_policy.1 ["TERMINATED", "PENDING", "RUNNING"]).1).mpr (by decide)

/-- Claim C6: when no annotation satisfies the best-response scan condition
for the first prompt's key, `update_table` logs and returns `None`: no
statement is issued and no exception is raised. -/
theorem C6_update_table_no_best (catalog schema tableName : String) (it : Item)
    (k : String) (ks : List String)
    (hk : it.promptKeys = k :: ks)
    (hnone : ∀ r ∈ it.annotations, isBestFor k r = false) :
    update_table catalog schema tableName it = ([], Except.ok none) := by
  simp [update_table, hk, findBest_eq_none k it.annotations hnone]

/-- An annotation that is not flagged best. -/
def respNotBest : Resp :=
  { isBestAttr := some false, promptId := some "prompt-1", modelId := none
    modelName := none, coordinates := "c" }

/-- An item with no best-flagged annotation for its first prompt key. -/
def itemNoBest : Item :=
  { promptName := "123.json", promptKeys := ["prompt-1"], annotations := [respNotBest] }

/-- Witness for claim C6 at a concrete item. -/
theorem C6_update_table_no_best_witness :
    update_table "cat" "sch" "tbl" itemNoBest = ([], Except.ok none) :=
  C6_update_table_no_best "cat" "sch" "tbl" itemNoBest "prompt-1" [] rfl (by decide)

/-- Claim C7, counterexample: the statement `LISTING '/Volumes/c/s/v'` has
leading keyword `LISTING`, which is neither `SELECT` nor `LIST`, yet the
executor takes the fetch path because the code tests a string prefix, not
the leading keyword — so the claimed if-and-only-if fails as stated. -/
theorem C7_read_dispatch_counterexample :
    ¬ (isFetched (call_databricks_query exConn "LISTING '/Volumes/c/s/v'") = true ↔
        (leadingKeyword "LISTING '/Volumes/c/s/v'" = "SELECT" ∨
         leadingKeyword "LISTING '/Volumes/c/s/v'" = "LIST")) := by
  decide

/-- Claim C7 (amended): the executor returns all fetched rows exactly when
the trimmed, upper-cased statement text starts with the prefix `SELECT` or
`LIST`; for every other statement it commits and returns the affected row
count. -/
theorem C7_read_dispatch_amended (conn : Conn) (q : String) :
    (isFetched (call_databricks_query conn q) = true ↔
      ("SELECT".toList.isPrefixOf (pyStripUpper q) = true ∨
       "LIST".toList.isPrefixOf (pyStripUpper q) = true)) ∧
    (isFetched (call_databricks_query conn q) = true →
      call_databricks_query conn q = QueryResult.fetchedRows (conn.fetch q)) ∧
    (isFetched (call_databricks_query conn q) = false →
      call_databricks_query conn q = QueryResult.committedRowcount (conn.rowcount q)) := by
  unfold call_databricks_query isReadQuery
  cases hs : "SELECT".toList.isPrefixOf (pyStripUpper q) <;>
    cases hl : "LIST".toList.isPrefixOf (pyStripUpper q) <;>
      simp [isFetched, hs, hl]

/-- Witness for the amended claim C7: a concrete non-read statement commits
and returns the row count. -/
theorem C7_read_dispatch_amended_witness :
    call_databricks_query exConn "UPDATE t SET response = ?" =
      QueryResult.committedRowcount 0 :=
  (C7_read_dispatch_amended exConn "UPDATE t SET response = ?").2.2 (by decide)

/-- Claim C8: over a batch of listed files with pairwise-distinct basenames,
every failed download is logged, the batch is not aborted, the bulk upload
still proceeds, and it contains exactly the successfully downloaded files
(N−K of the N listed files when K fail). -/
theorem C8_folder_partial_batch (files : List String) (downloadOk : String → Bool)
    (hnd : (files.map basename).Nodup) :
    (upload_dbrx_folder_to_dtlp files downloadOk).uploadProceeded = true ∧
    (upload_dbrx_folder_to_dtlp files downloadOk).loggedFailures =
      files.filter (fun f => !(downloadOk f)) ∧
    (upload_dbrx_folder_to_dtlp files downloadOk).uploadedNames.length +
      (files.filter (fun f => !(downloadOk f))).length = files.length ∧
    ∀ f ∈ files, downloadOk f = true →
      basename f ∈ (upload_dbrx_folder_to_dtlp files downloadOk).uploadedNames := by
  have h1 := downloadBatch_folder downloadOk files hnd
  refine ⟨rfl, downloadBatch_fails downloadOk files, ?_, ?_⟩
  · have h2 : (upload_dbrx_folder_to_dtlp files downloadOk).uploadedNames.length =
        (files.filter downloadOk).length := by
      simp [upload_dbrx_folder_to_dtlp, h1]
    rw [h2]
    exact length_filter_add_length_filter_not downloadOk files
  · intro f hf hok
    show basename f ∈ (downloadBatch downloadOk files).1
    rw [h1]
    exact List.mem_map.mpr ⟨f, List.mem_filter.mpr ⟨hf, hok⟩, rfl⟩

/-- A concrete listed batch of three volume files. -/
def filesW : List String :=
  ["/Volumes/c/s/v/a.txt", "/Volumes/c/s/v/b.txt", "/Volumes/c/s/v/c.txt"]

/-- A download behavior where exactly the second file fails. -/
def okW : String → Bool := fun f => f != "/Volumes/c/s/v/b.txt"

/-- Witness for claim C8: with one failing download out of three, the
failure is logged and the batch proceeds. -/
theorem C8_folder_partial_batch_witness :
    (upload_dbrx_folder_to_dtlp filesW okW).loggedFailures = ["/Volumes/c/s/v/b.txt"] := by
  have h := C8_folder_partial_batch filesW okW (by decide)
  exact h.2.1.trans (by decide)

/-- Claim C9: `create_table` (with the dataset resolved) builds exactly one
prompt record per fetched row, named by the row's `id` column, with the
row's `prompt` column wrapped as the single content part of the initial
user message. -/
theorem C9_create_table_rows (rows : List Row) :
    create_table true rows = some (rows.map promptItemOfRow) ∧
    (rows.map promptItemOfRow).length = rows.length ∧
    ∀ i : Nat, (rows.map promptItemOfRow)[i]? =
      (rows[i]?).map (fun r =>
        { name := toString r.id
          messages := [{ role := "user"
                         content := [{ mimetype := promptTypeText
                                       value := r.prompt }] }] }) := by
  refine ⟨rfl, by simp, ?_⟩
  intro i
  rw [List.getElem?_map]
  cases rows[i]? <;> rfl

/-- Claim C10: when a matching best annotation exists but the prompt-record
name with its last 5 characters removed is not a valid decimal integer
string, `update_table` raises a `ValueError` from `int()` — it neither
returns the `None` "not found" signal nor issues any UPDATE. -/
theorem C10_update_table_bad_pk (catalog schema tableName : String) (it : Item)
    (k : String) (ks : List String)
    (hk : it.promptKeys = k :: ks)
    (hbest : ∃ r ∈ it.annotations, isBestFor k r = true)
    (hbad : pythonInt (dropLast5 it.promptName) = none) :
    update_table catalog schema tableName it = ([], Except.error PyError.valueError) := by
  rcases findBest_isSome k it.annotations hbest with ⟨a, hfb⟩
  simp [update_table, hk, hfb, hbad]

/-- An item with a best annotation whose name has only 3 characters, so the
5-character strip leaves the empty string. -/
def itemShortName : Item :=
  { promptName := "123", promptKeys := ["prompt-1"], annotations := [respW] }

/-- Witness for claim C10 at a concrete item with an unparsable stripped
name. -/
theorem C10_update_table_bad_pk_witness :
    update_table "cat" "sch" "tbl" itemShortName = ([], Except.error PyError.valueError) :=
  C10_update_table_bad_pk "cat" "sch" "tbl" itemShortName "prompt-1" [] rfl
    (by decide) (by decide)

end DatabricksIntegration
